import Mathlib

/-! Verification of the Workbench Blender application template
(src/scripts/startup/bl_app_templates_system/Workbench/__init__.py).

The Python module is shallowly embedded below.  Pure path construction
(`get_project_root`, `get_version_folder`, `get_arch_folder`,
`get_blend_filename`) becomes pure Lean string functions.  The three
operators (`STUDIO_OT_create_structure.execute`,
`STUDIO_OT_archive_and_iterate.execute`, `STUDIO_OT_finalize.execute`)
become explicit state-passing functions over
  - a `World` (the set of directories that exist plus the document's
    canonical file path), and
  - a `Host` oracle that decides which filesystem / host-save calls
    raise an exception (modelling `OSError` from `os.makedirs`,
    exceptions from `bpy.ops.wm.save_as_mainfile`, `shutil.move`, and
    the scene-wipe operators).
Every operator run returns an `OpResult` recording the final outcome
(`FINISHED` / `CANCELLED` / an exception escaping `execute`), the final
property-group state, the final world, the list of `self.report`
messages, and the trace of side-effecting calls that were attempted.
-/

namespace Workbench

/-- Decimal digits of a natural number, least significant digit first,
with explicit structural fuel so that the function is a plain
structurally recursive definition. -/
def digitsRevFuel : Nat → Nat → List Nat
  | 0, _ => []
  | fuel + 1, n => if n = 0 then [] else n % 10 :: digitsRevFuel fuel (n / 10)

/-- Decimal digits of a natural number, least significant digit first. -/
def digitsRev (n : Nat) : List Nat := digitsRevFuel n n

/-- Value of a little-endian decimal digit list (left inverse of `digitsRev`). -/
def fromDigitsRev : List Nat → Nat
  | [] => 0
  | d :: ds => d + 10 * fromDigitsRev ds

/-- Decimal rendering of a natural number, as produced by Python's `str`/format. -/
def natRepr (n : Nat) : String :=
  if n = 0 then "0" else ((digitsRev n).reverse.map Nat.digitChar).asString

/-- Python format specifier `{n:02d}` for a natural number: the decimal
rendering, zero-padded on the left to width at least 2. -/
def fmt02 (n : Nat) : String :=
  if n < 10 then "0" ++ natRepr n else natRepr n

/-- Value of a list of decimal digit characters (most significant first);
used only as a verification device, a left inverse of rendering. -/
def parseDec (l : List Char) : Nat :=
  l.foldl (fun acc c => 10 * acc + (c.toNat - 48)) 0

/-- String version of `parseDec`. -/
def parseStr (s : String) : Nat := parseDec s.data

/-- Test for a leading path separator (Python `b.startswith(sep)` for `sep = "/"`). -/
def strStartsWithSlash (s : String) : Bool := s.data.head? == some '/'

/-- Test for a trailing path separator (Python `a.endswith(sep)`). -/
def strEndsWithSlash (s : String) : Bool := s.data.getLast? == some '/'

/-- Embedding of `os.path.join(a, b)` (POSIX semantics): an absolute
second component replaces the first; otherwise the two parts are joined,
inserting a separator unless the first part is empty or already ends in
one. -/
def osPathJoin (a b : String) : String :=
  if strStartsWithSlash b then b
  else if a = "" ∨ strEndsWithSlash a = true then a ++ b
  else a ++ "/" ++ b

/-- Test for Blender's leading `//` relative-path marker
(Python `path.startswith("//")`). -/
def startsWithSlashSlash (s : String) : Bool :=
  match s.data with
  | '/' :: '/' :: _ => true
  | _ => false

/-- Python slice `path[2:]` on a string, by characters. -/
def strDrop2 (s : String) : String := (s.data.drop 2).asString

/-- Embedding of `bpy.path.abspath`: a path starting with Blender's `//`
relative marker is resolved against the directory of the currently open
blend file (`os.path.join(start, path[2:])`); any other path is returned
unchanged. -/
def bpyPathAbspath (blend_dir p : String) : String :=
  if startsWithSlashSlash p then osPathJoin blend_dir (strDrop2 p) else p

/-- One entry of the `TYPE_ITEMS` EnumProperty item list:
(identifier, display label, description, icon, index). -/
structure EnumItem where
  identifier : String
  label : String
  description : String
  icon : String
  number : Nat
  deriving DecidableEq

/-- Embedding of the `TYPE_ITEMS` constant. -/
def TYPE_ITEMS : List EnumItem :=
  [⟨"prp", "Prop (prp)", "Standard Prop Asset", "OBJECT_DATAMODE", 0⟩,
   ⟨"chr", "Character (chr)", "Character/Rig Asset", "OUTLINER_OB_ARMATURE", 1⟩,
   ⟨"res", "Resource (res)", "General Resource or Environment", "WORLD", 2⟩]

/-- Embedding of the `StudioProjectProps` property group.  `asset_type`
holds the EnumProperty identifier (one of `prp`/`chr`/`res`);
`version` is the IntProperty (min = 1, default 1); `is_generated` is the
internal initialization flag. -/
structure StudioProjectProps where
  base_path : String
  asset_type : String
  asset_name : String
  version : Nat
  is_generated : Bool
  deriving DecidableEq

/-- The part of the Blender scene the module reads: its
`studio_props` pointer property and the directory of the currently open
blend file (consulted by `bpy.path.abspath` for `//`-relative roots). -/
structure Scene where
  studio_props : StudioProjectProps
  blend_dir : String
  deriving DecidableEq

/-- Embedding of `props.asset_name.replace(" ", "_")`: every space
character becomes an underscore, all other characters are unchanged. -/
def safeName (s : String) : String :=
  (s.data.map (fun c => if c = ' ' then '_' else c)).asString

/-- Embedding of `get_project_root`. -/
def get_project_root (scene : Scene) : String :=
  osPathJoin (bpyPathAbspath scene.blend_dir scene.studio_props.base_path)
    (scene.studio_props.asset_type ++ "_" ++ safeName scene.studio_props.asset_name)

/-- Embedding of `get_version_folder`. -/
def get_version_folder (scene : Scene) (version_int : Nat) : String :=
  osPathJoin (get_project_root scene) ("v" ++ fmt02 version_int)

/-- Embedding of `get_arch_folder`. -/
def get_arch_folder (scene : Scene) : String :=
  osPathJoin (get_project_root scene) "arch"

/-- Embedding of `get_blend_filename`. -/
def get_blend_filename (scene : Scene) (version_int : Nat) (state : String) : String :=
  scene.studio_props.asset_type ++ "_" ++ safeName scene.studio_props.asset_name ++
    "_v" ++ fmt02 version_int ++ "_" ++ state ++ ".blend"

/-- The `os.path.join(ver_folder, "wip", "projects")` working-projects
directory computed by the operators for a given version. -/
def wipProjectsDir (scene : Scene) (v : Nat) : String :=
  osPathJoin (osPathJoin (get_version_folder scene v) "wip") "projects"

/-- The `os.path.join(ver_folder, "fin", "projects")` final-projects
directory computed by the operators for a given version. -/
def finProjectsDir (scene : Scene) (v : Nat) : String :=
  osPathJoin (osPathJoin (get_version_folder scene v) "fin") "projects"

/-- Filesystem-and-document state threaded through an operator run:
the set of directories that exist and the canonical path of the open
document. -/
structure World where
  fs : List String
  docPath : String
  deriving DecidableEq

/-- Environment oracle deciding which external calls raise.  A `some e`
result means the call raises an exception rendered as `e`; `none` means
it succeeds.  `mkdirErr` is consulted by `os.makedirs` only when the
directory does not already exist (with `exist_ok=True` an existing
directory is never an error). -/
structure Host where
  mkdirErr : String → Option String
  saveErr : String → Bool → Option String
  wipeErr : Option String
  moveErr : String → String → Option String

/-- Side-effecting calls attempted by an operator, in order. -/
inductive Effect where
  | makedirs (path : String) (exist_ok : Bool)
  | save (path : String) (copy : Bool)
  | wipe
  | move (src dst : String)
  deriving DecidableEq

/-- Whether an effect is a host save request. -/
def Effect.isSave : Effect → Bool
  | .save _ _ => true
  | _ => false

/-- One `self.report({level}, msg)` call. -/
structure Report where
  level : String
  msg : String
  deriving DecidableEq

/-- How an operator run ends: `{'FINISHED'}`, `{'CANCELLED'}`, or an
uncaught exception escaping `execute` to the host. -/
inductive OpOutcome where
  | finished
  | cancelled
  | raised (e : String)
  deriving DecidableEq

/-- Result of one operator run. -/
structure OpResult where
  outcome : OpOutcome
  props : StudioProjectProps
  world : World
  reports : List Report
  trace : List Effect
  deriving DecidableEq

/-- Embedding of `os.makedirs(p, exist_ok=ok)`: an existing directory is
a no-op when `ok` is true (and `FileExistsError` otherwise); creating a
missing directory succeeds or raises according to the host oracle. -/
def doMakedirs (h : Host) (w : World) (p : String) (exist_ok : Bool) : Except String World :=
  if p ∈ w.fs then
    if exist_ok then .ok w else .error "FileExistsError"
  else
    match h.mkdirErr p with
    | some e => .error e
    | none => .ok ⟨p :: w.fs, w.docPath⟩

/-- Embedding of `bpy.ops.wm.save_as_mainfile(filepath=p, copy=c)`: on
success, a plain save redirects the document's canonical path to `p`
while a copy-save leaves it unchanged. -/
def doSave (h : Host) (w : World) (p : String) (copy : Bool) : Except String World :=
  match h.saveErr p copy with
  | some e => .error e
  | none => .ok ⟨w.fs, if copy then w.docPath else p⟩

/-- Embedding of `shutil.move(src, dst)`: on success the source
directory is relocated to the destination. -/
def doMove (h : Host) (w : World) (src dst : String) : Except String World :=
  match h.moveErr src dst with
  | some e => .error e
  | none => .ok ⟨dst :: w.fs.erase src, w.docPath⟩

/-- The `try: os.makedirs(d1); os.makedirs(d2); os.makedirs(d3)` block of
`STUDIO_OT_create_structure.execute`: runs the three creations in order,
stopping at the first exception; returns the raised message (if any),
the resulting world, and the trace of attempted calls. -/
def createFolders (h : Host) (w : World) (d1 d2 d3 : String) :
    Option String × World × List Effect :=
  match doMakedirs h w d1 true with
  | .error e => (some e, w, [.makedirs d1 true])
  | .ok w1 =>
    match doMakedirs h w1 d2 true with
    | .error e => (some e, w1, [.makedirs d1 true, .makedirs d2 true])
    | .ok w2 =>
      match doMakedirs h w2 d3 true with
      | .error e => (some e, w2, [.makedirs d1 true, .makedirs d2 true, .makedirs d3 true])
      | .ok w3 => (none, w3, [.makedirs d1 true, .makedirs d2 true, .makedirs d3 true])

/-- Embedding of `STUDIO_OT_create_structure.execute` (the Structure
Initializer): create the wip/fin/arch folders (exceptions caught,
reported as an ERROR, operator CANCELLED), then save the document at the
wip filename (exceptions caught, reported as a distinct ERROR, operator
CANCELLED); on success set `is_generated` and report INFO. -/
def STUDIO_OT_create_structure_execute (scene : Scene) (h : Host) (w : World) : OpResult :=
  let props := scene.studio_props
  let wip_dir := wipProjectsDir scene props.version
  let fin_dir := finProjectsDir scene props.version
  let arch_dir := get_arch_folder scene
  let fname := get_blend_filename scene props.version "wip"
  let full_path := osPathJoin wip_dir fname
  match createFolders h w wip_dir fin_dir arch_dir with
  | (some e, w1, tr) =>
    ⟨.cancelled, props, w1, [⟨"ERROR", "Could not create folders: " ++ e⟩], tr⟩
  | (none, w1, tr) =>
    match doSave h w1 full_path false with
    | .error e =>
      ⟨.cancelled, props, w1, [⟨"ERROR", "Could not save file: " ++ e⟩],
        tr ++ [.save full_path false]⟩
    | .ok w2 =>
      ⟨.finished, ⟨props.base_path, props.asset_type, props.asset_name, props.version, true⟩,
        w2, [⟨"INFO", "Workbench Initialized: " ++ fname⟩], tr ++ [.save full_path false]⟩

/-- Step 4 of `STUDIO_OT_archive_and_iterate.execute`: move the old
version folder into the archive if it exists and the destination does
not; a failing move is caught and reported as a WARNING. -/
def archiveStep (scene : Scene) (h : Host) (w : World) (cur_ver : Nat) :
    World × List Report × List Effect :=
  let old_ver_folder := get_version_folder scene cur_ver
  let arch_root := get_arch_folder scene
  if old_ver_folder ∈ w.fs then
    let dest_in_arch := osPathJoin arch_root ("v" ++ fmt02 cur_ver)
    if dest_in_arch ∈ w.fs then
      (w, [⟨"WARNING", "Archive for v" ++ fmt02 cur_ver ++ " already exists."⟩], [])
    else
      match doMove h w old_ver_folder dest_in_arch with
      | .ok w1 =>
        (w1, [⟨"INFO", "v" ++ fmt02 cur_ver ++ " Archived."⟩],
          [.move old_ver_folder dest_in_arch])
      | .error e =>
        (w, [⟨"WARNING", "Failed to move to archive: " ++ e⟩],
          [.move old_ver_folder dest_in_arch])
  else (w, [], [])

/-- Embedding of `STUDIO_OT_archive_and_iterate.execute` (the Version
Iterator).  Steps 1 (create next-version folders), 2 (optional scene
wipe) and 3 (save new wip file) run outside any `try` block, so an
exception raised there escapes `execute`; step 4 (archive move) is the
guarded `archiveStep`; step 5 unconditionally advances `props.version`. -/
def STUDIO_OT_archive_and_iterate_execute (scene : Scene) (wipe_scene : Bool)
    (h : Host) (w : World) : OpResult :=
  let props := scene.studio_props
  let cur_ver := props.version
  let next_ver := cur_ver + 1
  let new_wip_dir := wipProjectsDir scene next_ver
  let new_fin_dir := finProjectsDir scene next_ver
  let new_fname := get_blend_filename scene next_ver "wip"
  let new_filepath := osPathJoin new_wip_dir new_fname
  match doMakedirs h w new_wip_dir true with
  | .error e => ⟨.raised e, props, w, [], [.makedirs new_wip_dir true]⟩
  | .ok w1 =>
    match doMakedirs h w1 new_fin_dir true with
    | .error e =>
      ⟨.raised e, props, w1, [], [.makedirs new_wip_dir true, .makedirs new_fin_dir true]⟩
    | .ok w2 =>
      match (if wipe_scene then h.wipeErr else none) with
      | some e =>
        ⟨.raised e, props, w2, [],
          [.makedirs new_wip_dir true, .makedirs new_fin_dir true, .wipe]⟩
      | none =>
        let tr0 := [Effect.makedirs new_wip_dir true, Effect.makedirs new_fin_dir true] ++
          (if wipe_scene then [Effect.wipe] else [])
        match doSave h w2 new_filepath false with
        | .error e => ⟨.raised e, props, w2, [], tr0 ++ [.save new_filepath false]⟩
        | .ok w3 =>
          match archiveStep scene h w3 cur_ver with
          | (w4, reps, tr1) =>
            ⟨.finished,
              ⟨props.base_path, props.asset_type, props.asset_name, next_ver,
                props.is_generated⟩,
              w4, reps, tr0 ++ [.save new_filepath false] ++ tr1⟩

/-- Embedding of `STUDIO_OT_finalize.execute` (the Finalizer): ensure
the fin/projects folder exists (unguarded `os.makedirs`), then request a
copy-save at the fin filename (unguarded), then report INFO.  No
property is ever written. -/
def STUDIO_OT_finalize_execute (scene : Scene) (h : Host) (w : World) : OpResult :=
  let props := scene.studio_props
  let fin_dir := finProjectsDir scene props.version
  let fname := get_blend_filename scene props.version "fin"
  let path := osPathJoin fin_dir fname
  match (if fin_dir ∈ w.fs then Except.ok (w, ([] : List Effect)) else
      match doMakedirs h w fin_dir true with
      | .error e => Except.error e
      | .ok w1 => Except.ok (w1, [Effect.makedirs fin_dir true])) with
  | .error e => ⟨.raised e, props, w, [], [.makedirs fin_dir true]⟩
  | .ok (w1, tr) =>
    match doSave h w1 path true with
    | .error e => ⟨.raised e, props, w1, [], tr ++ [.save path true]⟩
    | .ok w2 =>
      ⟨.finished, props, w2, [⟨"INFO", "Published Final: " ++ fname⟩],
        tr ++ [.save path true]⟩

/-- Replace the `is_generated` flag of a scene's property group,
leaving every other field unchanged. -/
def withGen (scene : Scene) (b : Bool) : Scene :=
  ⟨⟨scene.studio_props.base_path, scene.studio_props.asset_type,
    scene.studio_props.asset_name, scene.studio_props.version, b⟩, scene.blend_dir⟩

/-- Concrete example property group used in the closed instance theorems. -/
def propsW : StudioProjectProps := ⟨"/studio", "prp", "My Asset", 1, false⟩

/-- Concrete example scene. -/
def sceneW : Scene := ⟨propsW, "/blend"⟩

/-- Concrete starting world with no project directories. -/
def world0 : World := ⟨[], "/blend/untitled.blend"⟩

/-- Host oracle on which every external call succeeds. -/
def hostOK : Host := ⟨fun _ => none, fun _ _ => none, none, fun _ _ => none⟩

/-- Host oracle on which every `os.makedirs` call raises. -/
def hostMkdirFail : Host :=
  ⟨fun _ => some "disk full", fun _ _ => none, none, fun _ _ => none⟩

/-- Host oracle on which every host save call raises. -/
def hostSaveFail : Host :=
  ⟨fun _ => none, fun _ _ => some "io error", none, fun _ _ => none⟩

/-- Host oracle on which every `shutil.move` call raises. -/
def hostMoveFail : Host :=
  ⟨fun _ => none, fun _ _ => none, none, fun _ _ => some "locked"⟩

/-- Concrete world in which the v01 folder of `sceneW` exists. -/
def worldV1 : World := ⟨[get_version_folder sceneW 1], "/d.blend"⟩

/-- Concrete world in which both the v01 folder of `sceneW` and its
archive destination exist. -/
def worldV1Arch : World :=
  ⟨[get_version_folder sceneW 1, osPathJoin (get_arch_folder sceneW) ("v" ++ fmt02 1)],
    "/d.blend"⟩

/-- Concrete scene with root path `/a` (agrees with `sceneRootB` on
asset type, asset name and version). -/
def sceneRootA : Scene := ⟨⟨"/a", "prp", "X", 1, true⟩, ""⟩

/-- Concrete scene with root path `/b` (agrees with `sceneRootA` on
asset type, asset name and version). -/
def sceneRootB : Scene := ⟨⟨"/b", "prp", "X", 1, true⟩, ""⟩

/-! Helper lemmas about decimal rendering and path strings. -/

theorem fromDigitsRev_digitsRevFuel (fuel : Nat) :
    ∀ n, n ≤ fuel → fromDigitsRev (digitsRevFuel fuel n) = n := by
  induction fuel with
  | zero =>
    intro n hn
    have hz : n = 0 := Nat.le_zero.mp hn
    subst hz
    rfl
  | succ fuel ih =>
    intro n hn
    by_cases hz : n = 0
    · subst hz; rfl
    · have hdiv : n / 10 ≤ fuel := by omega
      have hrec := ih (n / 10) hdiv
      simp only [digitsRevFuel, if_neg hz, fromDigitsRev, hrec]
      omega

theorem digitsRevFuel_lt_ten (fuel : Nat) :
    ∀ n d, d ∈ digitsRevFuel fuel n → d < 10 := by
  induction fuel with
  | zero => intro n d hd; simp [digitsRevFuel] at hd
  | succ fuel ih =>
    intro n d hd
    by_cases hz : n = 0
    · rw [hz] at hd; simp [digitsRevFuel] at hd
    · simp only [digitsRevFuel, if_neg hz, List.mem_cons] at hd
      rcases hd with hd | hd
      · omega
      · exact ih _ _ hd

theorem digitChar_toNat_inv : ∀ d, d < 10 → (Nat.digitChar d).toNat - 48 = d := by decide

theorem digitChar_ne_slash : ∀ d, d < 10 → Nat.digitChar d ≠ '/' := by decide

theorem parseDec_reverse_map (ds : List Nat) (hds : ∀ d ∈ ds, d < 10) :
    parseDec (ds.reverse.map Nat.digitChar) = fromDigitsRev ds := by
  induction ds with
  | nil => rfl
  | cons d ds ih =>
    have hd : d < 10 := hds d (List.mem_cons_self d ds)
    have hds2 : ∀ x ∈ ds, x < 10 := fun x hx => hds x (List.mem_cons_of_mem d hx)
    have ihd := ih hds2
    simp only [List.reverse_cons, List.map_append, List.map_cons, List.map_nil, parseDec,
      List.foldl_append, List.foldl_cons, List.foldl_nil] at ihd ⊢
    rw [ihd, digitChar_toNat_inv d hd]
    simp only [fromDigitsRev]
    omega

theorem parseStr_natRepr (n : Nat) : parseStr (natRepr n) = n := by
  by_cases hz : n = 0
  · subst hz; decide
  · have h1 : ∀ d ∈ digitsRev n, d < 10 := fun d hd => digitsRevFuel_lt_ten n n d hd
    have h2 : parseStr (natRepr n) = parseDec ((digitsRev n).reverse.map Nat.digitChar) := by
      simp only [natRepr, if_neg hz, parseStr]
      rfl
    rw [h2, parseDec_reverse_map _ h1]
    exact fromDigitsRev_digitsRevFuel n n (Nat.le_refl n)

theorem parseStr_fmt02 (n : Nat) : parseStr (fmt02 n) = n := by
  by_cases h : n < 10
  · have hdata : ("0" ++ natRepr n).data = '0' :: (natRepr n).data := by
      rw [String.data_append]; rfl
    have hstep : parseStr (fmt02 n) = parseDec ('0' :: (natRepr n).data) := by
      simp only [fmt02, if_pos h, parseStr, hdata]
    have c0 : 10 * 0 + ('0'.toNat - 48) = 0 := by decide
    rw [hstep]
    simp only [parseDec, List.foldl_cons, c0]
    exact parseStr_natRepr n
  · simp only [fmt02, if_neg h]
    exact parseStr_natRepr n

theorem fmt02_injective {m n : Nat} (h : fmt02 m = fmt02 n) : m = n := by
  have hm := parseStr_fmt02 m
  rw [h, parseStr_fmt02] at hm
  omega

theorem str_append_cancel_left {a b c : String} (h : a ++ b = a ++ c) : b = c := by
  apply String.ext
  have hd := congrArg String.data h
  simp only [String.data_append] at hd
  exact List.append_cancel_left hd

theorem strStartsWithSlash_v_append (s : String) :
    strStartsWithSlash ("v" ++ s) = false := by
  have hd : ("v" ++ s).data = 'v' :: s.data := by
    rw [String.data_append]; rfl
  simp only [strStartsWithSlash, hd, List.head?_cons]
  rfl

theorem get_version_folder_eq (scene : Scene) (v : Nat) :
    get_version_folder scene v =
      if get_project_root scene = "" ∨ strEndsWithSlash (get_project_root scene) = true
      then get_project_root scene ++ ("v" ++ fmt02 v)
      else get_project_root scene ++ "/" ++ ("v" ++ fmt02 v) := by
  unfold get_version_folder osPathJoin
  rw [strStartsWithSlash_v_append]
  simp

theorem get_version_folder_injective (scene : Scene) {v1 v2 : Nat}
    (h : get_version_folder scene v1 = get_version_folder scene v2) : v1 = v2 := by
  rw [get_version_folder_eq, get_version_folder_eq] at h
  by_cases hc : get_project_root scene = "" ∨ strEndsWithSlash (get_project_root scene) = true
  · rw [if_pos hc, if_pos hc] at h
    exact fmt02_injective (str_append_cancel_left (str_append_cancel_left h))
  · rw [if_neg hc, if_neg hc] at h
    exact fmt02_injective (str_append_cancel_left (str_append_cancel_left h))

theorem natRepr_chars (n : Nat) : ∀ ch ∈ (natRepr n).data, ch ≠ '/' := by
  by_cases hz : n = 0
  · subst hz
    intro ch hch
    have hd : (natRepr 0).data = ['0'] := rfl
    rw [hd] at hch
    have : ch = '0' := by simpa using hch
    subst this; decide
  · intro ch hch
    have hd : (natRepr n).data = (digitsRev n).reverse.map Nat.digitChar := by
      simp only [natRepr, if_neg hz]
      rfl
    rw [hd] at hch
    rcases List.mem_map.mp hch with ⟨d, hdm, rfl⟩
    exact digitChar_ne_slash d (digitsRevFuel_lt_ten n n d (List.mem_reverse.mp hdm))

theorem fmt02_chars (n : Nat) : ∀ ch ∈ (fmt02 n).data, ch ≠ '/' := by
  intro ch hch
  unfold fmt02 at hch
  by_cases h : n < 10
  · rw [if_pos h] at hch
    have hd : ("0" ++ natRepr n).data = '0' :: (natRepr n).data := by
      rw [String.data_append]; rfl
    rw [hd] at hch
    rcases List.mem_cons.mp hch with h0 | h0
    · subst h0; decide
    · exact natRepr_chars n ch h0
  · rw [if_neg h] at hch
    exact natRepr_chars n ch hch

theorem blend_wip_ne_fin (scene : Scene) (v : Nat) :
    get_blend_filename scene v "wip" ≠ get_blend_filename scene v "fin" := by
  intro h
  unfold get_blend_filename at h
  have hd := congrArg String.data h
  simp only [String.data_append, List.append_assoc] at hd
  have h1 := List.append_cancel_left hd
  have h2 := List.append_cancel_left h1
  have h3 := List.append_cancel_left h2
  have h4 := List.append_cancel_left h3
  have h5 := List.append_cancel_left h4
  have h6 := List.append_cancel_left h5
  exact absurd h6 (by decide)

theorem forall2_map_sanitize (l : List Char) :
    List.Forall₂ (fun a b => (a = ' ' → b = '_') ∧ (a ≠ ' ' → b = a)) l
      (l.map (fun c => if c = ' ' then '_' else c)) := by
  induction l with
  | nil => exact List.Forall₂.nil
  | cons c cs ih =>
    simp only [List.map_cons]
    refine List.Forall₂.cons ⟨?_, ?_⟩ ih
    · intro hc; rw [if_pos hc]
    · intro hc; rw [if_neg hc]

/-- C6 as frozen is refuted on `get_version_folder`: two scenes that
agree on asset type, asset name and version (but differ in the root
path field) produce different version folders, so `version_folder` is
not a function of the fields (type, name, v) alone. -/
theorem C6_counterexample :
    sceneRootA.studio_props.asset_type = sceneRootB.studio_props.asset_type ∧
    sceneRootA.studio_props.asset_name = sceneRootB.studio_props.asset_name ∧
    sceneRootA.studio_props.version = sceneRootB.studio_props.version ∧
    get_version_folder sceneRootA 1 ≠ get_version_folder sceneRootB 1 := by
  refine ⟨rfl, rfl, rfl, ?_⟩
  decide

/-- C6 amended: for every config and version, the wip and fin blend
filenames differ; `get_blend_filename` is a pure function of
(asset type, asset name, version, state) alone; and
`get_version_folder` is a pure function of (root path, blend-file
directory, asset type, asset name, version) — scenes agreeing on those
inputs always produce equal outputs, so no other state affects them. -/
theorem C6_blend_filename_pure (scene s1 s2 : Scene) (v : Nat) (st : String) :
    get_blend_filename scene v "wip" ≠ get_blend_filename scene v "fin" ∧
    (s1.studio_props.asset_type = s2.studio_props.asset_type →
      s1.studio_props.asset_name = s2.studio_props.asset_name →
      get_blend_filename s1 v st = get_blend_filename s2 v st) ∧
    (s1.studio_props.asset_type = s2.studio_props.asset_type →
      s1.studio_props.asset_name = s2.studio_props.asset_name →
      s1.studio_props.base_path = s2.studio_props.base_path →
      s1.blend_dir = s2.blend_dir →
      get_version_folder s1 v = get_version_folder s2 v) := by
  refine ⟨blend_wip_ne_fin scene v, ?_, ?_⟩
  · intro ht hn
    unfold get_blend_filename
    rw [ht, hn]
  · intro ht hn hb hd
    unfold get_version_folder get_project_root bpyPathAbspath
    rw [ht, hn, hb, hd]

theorem C6_witness :
    get_blend_filename sceneW 1 "wip" ≠ get_blend_filename sceneW 1 "fin" ∧
    get_blend_filename sceneW 1 "wip" = get_blend_filename sceneW 1 "wip" ∧
    get_version_folder sceneW 1 = get_version_folder sceneW 1 :=
  ⟨(C6_blend_filename_pure sceneW sceneW sceneW 1 "wip").1,
   (C6_blend_filename_pure sceneW sceneW sceneW 1 "wip").2.1 rfl rfl,
   (C6_blend_filename_pure sceneW sceneW sceneW 1 "wip").2.2 rfl rfl rfl rfl⟩

/-- C7: for a fixed scene, distinct versions (at least 1) have
lexically distinct version folders, and every version folder is the
join of the project root with a single separator-free nonempty
component, i.e. a direct child path of the project root. -/
theorem C7_version_folder_distinct_and_child (scene : Scene) (v1 v2 v : Nat)
    (h1 : 1 ≤ v1) (h2 : 1 ≤ v2) (hne : v1 ≠ v2) (hv : 1 ≤ v) :
    get_version_folder scene v1 ≠ get_version_folder scene v2 ∧
    ∃ c : String, c ≠ "" ∧ (∀ ch ∈ c.data, ch ≠ '/') ∧
      get_version_folder scene v = osPathJoin (get_project_root scene) c := by
  constructor
  · intro h
    exact hne (get_version_folder_injective scene h)
  · refine ⟨"v" ++ fmt02 v, ?_, ?_, rfl⟩
    · intro hc
      have hdata := congrArg String.data hc
      have hd : ("v" ++ fmt02 v).data = 'v' :: (fmt02 v).data := by
        rw [String.data_append]; rfl
      have he : ("" : String).data = [] := rfl
      rw [hd, he] at hdata
      exact List.cons_ne_nil _ _ hdata
    · intro ch hch
      have hd : ("v" ++ fmt02 v).data = 'v' :: (fmt02 v).data := by
        rw [String.data_append]; rfl
      rw [hd] at hch
      rcases List.mem_cons.mp hch with h0 | h0
      · subst h0; decide
      · exact fmt02_chars v ch h0

theorem C7_witness :
    1 ≤ 1 ∧ 1 ≤ 2 ∧ (1 : Nat) ≠ 2 ∧
    (get_version_folder sceneW 1 ≠ get_version_folder sceneW 2 ∧
     ∃ c : String, c ≠ "" ∧ (∀ ch ∈ c.data, ch ≠ '/') ∧
       get_version_folder sceneW 1 = osPathJoin (get_project_root sceneW) c) :=
  ⟨Nat.le_refl 1, by omega, by omega,
   C7_version_folder_distinct_and_child sceneW 1 2 1 (Nat.le_refl 1) (by omega) (by omega)
     (Nat.le_refl 1)⟩

/-- C8: name sanitization replaces exactly the space characters of the
asset name by underscores (every other character is kept, length
preserved — expressed by the pointwise `Forall₂`), and paths use the
short type code, not the enum display label: asset name "My Asset" with
type code `prp` (display label "Prop (prp)") yields project root
`/studio/prp_My_Asset` and wip filename `prp_My_Asset_v01_wip.blend`. -/
theorem C8_sanitization_and_type_code :
    get_project_root sceneW = "/studio/prp_My_Asset" ∧
    get_blend_filename sceneW 1 "wip" = "prp_My_Asset_v01_wip.blend" ∧
    (∃ item, item ∈ TYPE_ITEMS ∧ item.identifier = "prp" ∧ item.label = "Prop (prp)") ∧
    ∀ s : String, List.Forall₂ (fun a b => (a = ' ' → b = '_') ∧ (a ≠ ' ' → b = a))
      s.data (safeName s).data := by
  refine ⟨by decide, by decide,
    ⟨⟨"prp", "Prop (prp)", "Standard Prop Asset", "OBJECT_DATAMODE", 0⟩, by decide, rfl, rfl⟩,
    ?_⟩
  intro s
  have hd : (safeName s).data = s.data.map (fun c => if c = ' ' then '_' else c) := rfl
  rw [hd]
  exact forall2_map_sanitize s.data

theorem C8_witness :
    List.Forall₂ (fun a b => (a = ' ' → b = '_') ∧ (a ≠ ' ' → b = a))
      "My Asset".data (safeName "My Asset").data :=
  C8_sanitization_and_type_code.2.2.2 "My Asset"

/-! Helper lemmas about the effect primitives. -/

theorem doMakedirs_mem (h : Host) (w : World) (p : String) (hp : p ∈ w.fs) :
    doMakedirs h w p true = .ok w := by
  unfold doMakedirs
  rw [if_pos hp]
  rfl

theorem doMakedirs_err (h : Host) (w : World) (p e : String)
    (hm : p ∉ w.fs) (hp : h.mkdirErr p = some e) :
    doMakedirs h w p true = .error e := by
  unfold doMakedirs
  rw [if_neg hm, hp]

theorem doMakedirs_none (h : Host) (w : World) (p : String) (hp : h.mkdirErr p = none) :
    doMakedirs h w p true = .ok (if p ∈ w.fs then w else ⟨p :: w.fs, w.docPath⟩) := by
  unfold doMakedirs
  by_cases hm : p ∈ w.fs
  · rw [if_pos hm, if_pos hm]
    rfl
  · rw [if_neg hm, if_neg hm, hp]

theorem doSave_none (h : Host) (w : World) (p : String) (c : Bool)
    (hp : h.saveErr p c = none) :
    doSave h w p c = .ok ⟨w.fs, if c then w.docPath else p⟩ := by
  unfold doSave
  rw [hp]

theorem doSave_err (h : Host) (w : World) (p : String) (c : Bool) (e : String)
    (hp : h.saveErr p c = some e) :
    doSave h w p c = .error e := by
  unfold doSave
  rw [hp]

theorem doMove_err (h : Host) (w : World) (src dst e : String)
    (hp : h.moveErr src dst = some e) :
    doMove h w src dst = .error e := by
  unfold doMove
  rw [hp]

theorem doMove_none (h : Host) (w : World) (src dst : String)
    (hp : h.moveErr src dst = none) :
    doMove h w src dst = .ok ⟨dst :: w.fs.erase src, w.docPath⟩ := by
  unfold doMove
  rw [hp]

/-! Lemmas separating version folders from the wip/fin projects folders
(used to reason about the archive step of the Version Iterator). -/

theorem osPathJoin_data_getLast (a b : String) (c : Char) (hb : b.data.getLast? = some c) :
    (osPathJoin a b).data.getLast? = some c := by
  unfold osPathJoin
  by_cases h1 : strStartsWithSlash b = true
  · rw [if_pos h1]; exact hb
  · rw [if_neg h1]
    by_cases h2 : a = "" ∨ strEndsWithSlash a = true
    · rw [if_pos h2, String.data_append, List.getLast?_append, hb]
      rfl
    · rw [if_neg h2, String.data_append, List.getLast?_append, hb]
      rfl

theorem digitsRev_head (n : Nat) (hz : n ≠ 0) : (digitsRev n).head? = some (n % 10) := by
  unfold digitsRev
  cases n with
  | zero => exact absurd rfl hz
  | succ m => simp [digitsRevFuel]

theorem natRepr_getLast_digit (n : Nat) :
    ∃ d, d < 10 ∧ (natRepr n).data.getLast? = some (Nat.digitChar d) := by
  by_cases hz : n = 0
  · subst hz
    exact ⟨0, by omega, rfl⟩
  · refine ⟨n % 10, by omega, ?_⟩
    have hd : (natRepr n).data = (digitsRev n).reverse.map Nat.digitChar := by
      simp only [natRepr, if_neg hz]
      rfl
    rw [hd, List.map_reverse, List.getLast?_reverse, List.head?_map, digitsRev_head n hz]
    rfl

theorem fmt02_getLast_digit (n : Nat) :
    ∃ d, d < 10 ∧ (fmt02 n).data.getLast? = some (Nat.digitChar d) := by
  rcases natRepr_getLast_digit n with ⟨d, hd, hL⟩
  refine ⟨d, hd, ?_⟩
  unfold fmt02
  by_cases h : n < 10
  · rw [if_pos h, String.data_append, List.getLast?_append, hL]
    rfl
  · rw [if_neg h]
    exact hL

theorem osPathJoin_vfmt_getLast (a : String) (v : Nat) :
    ∃ d, d < 10 ∧ (osPathJoin a ("v" ++ fmt02 v)).data.getLast? = some (Nat.digitChar d) := by
  rcases fmt02_getLast_digit v with ⟨d, hd, hL⟩
  refine ⟨d, hd, ?_⟩
  apply osPathJoin_data_getLast
  rw [String.data_append, List.getLast?_append, hL]
  rfl

theorem projectsDir_getLast (a : String) :
    (osPathJoin a "projects").data.getLast? = some 's' := by
  apply osPathJoin_data_getLast
  rfl

theorem digitChar_ne_s : ∀ d, d < 10 → Nat.digitChar d ≠ 's' := by decide

theorem vdir_ne_projectsDir (a b : String) (v : Nat) :
    osPathJoin a ("v" ++ fmt02 v) ≠ osPathJoin b "projects" := by
  intro h
  rcases osPathJoin_vfmt_getLast a v with ⟨d, hd, hL⟩
  have hcong := congrArg (fun s : String => s.data.getLast?) h
  simp only at hcong
  rw [hL, projectsDir_getLast b] at hcong
  exact digitChar_ne_s d hd (Option.some.inj hcong)

theorem version_folder_ne_wipDir (scene sc2 : Scene) (v v2 : Nat) :
    get_version_folder scene v ≠ wipProjectsDir sc2 v2 :=
  vdir_ne_projectsDir (get_project_root scene) (osPathJoin (get_version_folder sc2 v2) "wip") v

theorem version_folder_ne_finDir (scene sc2 : Scene) (v v2 : Nat) :
    get_version_folder scene v ≠ finProjectsDir sc2 v2 :=
  vdir_ne_projectsDir (get_project_root scene) (osPathJoin (get_version_folder sc2 v2) "fin") v

theorem arch_dest_ne_wipDir (scene sc2 : Scene) (v v2 : Nat) :
    osPathJoin (get_arch_folder scene) ("v" ++ fmt02 v) ≠ wipProjectsDir sc2 v2 :=
  vdir_ne_projectsDir (get_arch_folder scene) (osPathJoin (get_version_folder sc2 v2) "wip") v

theorem arch_dest_ne_finDir (scene sc2 : Scene) (v v2 : Nat) :
    osPathJoin (get_arch_folder scene) ("v" ++ fmt02 v) ≠ finProjectsDir sc2 v2 :=
  vdir_ne_projectsDir (get_arch_folder scene) (osPathJoin (get_version_folder sc2 v2) "fin") v

theorem iterate_success_form (scene : Scene) (flag : Bool) (h : Host) (w : World)
    (hmk1 : h.mkdirErr (wipProjectsDir scene (scene.studio_props.version + 1)) = none)
    (hmk2 : h.mkdirErr (finProjectsDir scene (scene.studio_props.version + 1)) = none)
    (hwipe : flag = true → h.wipeErr = none)
    (hsave : h.saveErr
      (osPathJoin (wipProjectsDir scene (scene.studio_props.version + 1))
        (get_blend_filename scene (scene.studio_props.version + 1) "wip")) false = none) :
    ∃ w3 : World,
      (∀ q : String, q ≠ wipProjectsDir scene (scene.studio_props.version + 1) →
        q ≠ finProjectsDir scene (scene.studio_props.version + 1) →
        ((q ∈ w3.fs) ↔ (q ∈ w.fs))) ∧
      STUDIO_OT_archive_and_iterate_execute scene flag h w =
        ⟨.finished,
         ⟨scene.studio_props.base_path, scene.studio_props.asset_type,
          scene.studio_props.asset_name, scene.studio_props.version + 1,
          scene.studio_props.is_generated⟩,
         (archiveStep scene h w3 scene.studio_props.version).1,
         (archiveStep scene h w3 scene.studio_props.version).2.1,
         [Effect.makedirs (wipProjectsDir scene (scene.studio_props.version + 1)) true,
          Effect.makedirs (finProjectsDir scene (scene.studio_props.version + 1)) true] ++
         (if flag then [Effect.wipe] else []) ++
         [Effect.save (osPathJoin (wipProjectsDir scene (scene.studio_props.version + 1))
            (get_blend_filename scene (scene.studio_props.version + 1) "wip")) false] ++
         (archiveStep scene h w3 scene.studio_props.version).2.2⟩ := by
  have hw2 : (if flag then h.wipeErr else none) = none := by
    cases flag with
    | false => rfl
    | true => exact hwipe rfl
  by_cases hm1 : wipProjectsDir scene (scene.studio_props.version + 1) ∈ w.fs
  · by_cases hm2 : finProjectsDir scene (scene.studio_props.version + 1) ∈ w.fs
    · refine ⟨⟨w.fs, osPathJoin (wipProjectsDir scene (scene.studio_props.version + 1))
        (get_blend_filename scene (scene.studio_props.version + 1) "wip")⟩,
        fun q hq1 hq2 => Iff.rfl, ?_⟩
      simp [STUDIO_OT_archive_and_iterate_execute, doMakedirs_none, doSave_none,
        hmk1, hmk2, hsave, hw2, hm1, hm2]
    · refine ⟨⟨finProjectsDir scene (scene.studio_props.version + 1) :: w.fs,
        osPathJoin (wipProjectsDir scene (scene.studio_props.version + 1))
          (get_blend_filename scene (scene.studio_props.version + 1) "wip")⟩, ?_, ?_⟩
      · intro q hq1 hq2
        simp [List.mem_cons, hq2]
      · simp [STUDIO_OT_archive_and_iterate_execute, doMakedirs_none, doSave_none,
          hmk1, hmk2, hsave, hw2, hm1, hm2]
  · by_cases hm2 : finProjectsDir scene (scene.studio_props.version + 1) ∈
      wipProjectsDir scene (scene.studio_props.version + 1) :: w.fs
    · refine ⟨⟨wipProjectsDir scene (scene.studio_props.version + 1) :: w.fs,
        osPathJoin (wipProjectsDir scene (scene.studio_props.version + 1))
          (get_blend_filename scene (scene.studio_props.version + 1) "wip")⟩, ?_, ?_⟩
      · intro q hq1 hq2
        simp [List.mem_cons, hq1]
      · simp [STUDIO_OT_archive_and_iterate_execute, doMakedirs_none, doSave_none,
          hmk1, hmk2, hsave, hw2, hm1, hm2]
    · refine ⟨⟨finProjectsDir scene (scene.studio_props.version + 1) ::
        wipProjectsDir scene (scene.studio_props.version + 1) :: w.fs,
        osPathJoin (wipProjectsDir scene (scene.studio_props.version + 1))
          (get_blend_filename scene (scene.studio_props.version + 1) "wip")⟩, ?_, ?_⟩
      · intro q hq1 hq2
        simp [List.mem_cons, hq1, hq2]
      · simp [STUDIO_OT_archive_and_iterate_execute, doMakedirs_none, doSave_none,
          hmk1, hmk2, hsave, hw2, hm1, hm2]

theorem iterate_props_dichotomy (scene : Scene) (flag : Bool) (h : Host) (w : World) :
    ((STUDIO_OT_archive_and_iterate_execute scene flag h w).props = scene.studio_props ∧
      (STUDIO_OT_archive_and_iterate_execute scene flag h w).outcome ≠ OpOutcome.finished) ∨
    ((STUDIO_OT_archive_and_iterate_execute scene flag h w).props =
        ⟨scene.studio_props.base_path, scene.studio_props.asset_type,
         scene.studio_props.asset_name, scene.studio_props.version + 1,
         scene.studio_props.is_generated⟩ ∧
      (STUDIO_OT_archive_and_iterate_execute scene flag h w).outcome = OpOutcome.finished) := by
  obtain ⟨R, hR⟩ : ∃ R, STUDIO_OT_archive_and_iterate_execute scene flag h w = R := ⟨_, rfl⟩
  rw [hR]
  simp only [STUDIO_OT_archive_and_iterate_execute] at hR
  cases hm1 : doMakedirs h w (wipProjectsDir scene (scene.studio_props.version + 1)) true with
  | error e1 =>
    simp only [hm1] at hR
    subst hR
    exact Or.inl ⟨rfl, by simp⟩
  | ok w1 =>
    simp only [hm1] at hR
    cases hm2 : doMakedirs h w1 (finProjectsDir scene (scene.studio_props.version + 1)) true with
    | error e2 =>
      simp only [hm2] at hR
      subst hR
      exact Or.inl ⟨rfl, by simp⟩
    | ok w2 =>
      simp only [hm2] at hR
      cases hwv : (if flag then h.wipeErr else none) with
      | some e3 =>
        simp only [hwv] at hR
        subst hR
        exact Or.inl ⟨rfl, by simp⟩
      | none =>
        simp only [hwv] at hR
        cases hsv : doSave h w2
            (osPathJoin (wipProjectsDir scene (scene.studio_props.version + 1))
              (get_blend_filename scene (scene.studio_props.version + 1) "wip")) false with
        | error e4 =>
          simp only [hsv] at hR
          subst hR
          exact Or.inl ⟨rfl, by simp⟩
        | ok w3 =>
          simp only [hsv] at hR
          subst hR
          exact Or.inr ⟨rfl, rfl⟩

theorem doMakedirs_ok_mem (h : Host) (w : World) (p : String) (w2 : World)
    (hw : doMakedirs h w p true = .ok w2) :
    p ∈ w2.fs ∧ (∀ q, q ∈ w.fs → q ∈ w2.fs) ∧ w2.docPath = w.docPath := by
  unfold doMakedirs at hw
  by_cases hm : p ∈ w.fs
  · rw [if_pos hm] at hw
    simp at hw
    subst hw
    exact ⟨hm, fun q hq => hq, rfl⟩
  · rw [if_neg hm] at hw
    cases he : h.mkdirErr p with
    | some e => rw [he] at hw; exact absurd hw (by simp)
    | none =>
      rw [he] at hw
      simp only [Except.ok.injEq] at hw
      subst hw
      exact ⟨List.mem_cons_self _ _, fun q hq => List.mem_cons_of_mem _ hq, rfl⟩

theorem createFolders_none_parts (h : Host) (w : World) (d1 d2 d3 : String)
    (w1 : World) (tr : List Effect)
    (hc : createFolders h w d1 d2 d3 = (none, w1, tr)) :
    tr = [Effect.makedirs d1 true, Effect.makedirs d2 true, Effect.makedirs d3 true] ∧
    d1 ∈ w1.fs ∧ d2 ∈ w1.fs ∧ d3 ∈ w1.fs ∧ w1.docPath = w.docPath := by
  unfold createFolders at hc
  cases hm1 : doMakedirs h w d1 true with
  | error e => simp [hm1] at hc
  | ok wa =>
    simp only [hm1] at hc
    cases hm2 : doMakedirs h wa d2 true with
    | error e => simp [hm2] at hc
    | ok wb =>
      simp only [hm2] at hc
      cases hm3 : doMakedirs h wb d3 true with
      | error e => simp [hm3] at hc
      | ok wc =>
        simp only [hm3, Prod.mk.injEq, true_and] at hc
        obtain ⟨hw1, htr⟩ := hc
        subst hw1
        subst htr
        obtain ⟨ha1, ha2, ha3⟩ := doMakedirs_ok_mem h w d1 wa hm1
        obtain ⟨hb1, hb2, hb3⟩ := doMakedirs_ok_mem h wa d2 wb hm2
        obtain ⟨hc1, hc2, hc3⟩ := doMakedirs_ok_mem h wb d3 wc hm3
        exact ⟨rfl, hc2 _ (hb2 _ ha1), hc2 _ hb1, hc1, by rw [hc3, hb3, ha3]⟩

theorem createFolders_trace_no_save (h : Host) (w : World) (d1 d2 d3 : String)
    (oe : Option String) (w1 : World) (tr : List Effect)
    (hc : createFolders h w d1 d2 d3 = (oe, w1, tr)) :
    ∀ eff ∈ tr, eff.isSave = false := by
  unfold createFolders at hc
  cases hm1 : doMakedirs h w d1 true with
  | error e =>
    simp only [hm1, Prod.mk.injEq] at hc
    obtain ⟨-, -, htr⟩ := hc
    subst htr
    simp [Effect.isSave]
  | ok wa =>
    simp only [hm1] at hc
    cases hm2 : doMakedirs h wa d2 true with
    | error e =>
      simp only [hm2, Prod.mk.injEq] at hc
      obtain ⟨-, -, htr⟩ := hc
      subst htr
      simp [Effect.isSave]
    | ok wb =>
      simp only [hm2] at hc
      cases hm3 : doMakedirs h wb d3 true with
      | error e =>
        simp only [hm3, Prod.mk.injEq] at hc
        obtain ⟨-, -, htr⟩ := hc
        subst htr
        simp [Effect.isSave]
      | ok wc =>
        simp only [hm3, Prod.mk.injEq] at hc
        obtain ⟨-, -, htr⟩ := hc
        subst htr
        simp [Effect.isSave]

theorem createFolders_all_mem (h : Host) (w : World) (d1 d2 d3 : String)
    (h1 : d1 ∈ w.fs) (h2 : d2 ∈ w.fs) (h3 : d3 ∈ w.fs) :
    createFolders h w d1 d2 d3 =
      (none, w, [Effect.makedirs d1 true, Effect.makedirs d2 true, Effect.makedirs d3 true]) := by
  simp only [createFolders, doMakedirs_mem h w d1 h1, doMakedirs_mem h w d2 h2,
    doMakedirs_mem h w d3 h3]

theorem create_props_version (scene : Scene) (h : Host) (w : World) :
    (STUDIO_OT_create_structure_execute scene h w).props.version =
      scene.studio_props.version := by
  obtain ⟨R, hR⟩ : ∃ R, STUDIO_OT_create_structure_execute scene h w = R := ⟨_, rfl⟩
  rw [hR]
  simp only [STUDIO_OT_create_structure_execute] at hR
  rcases hc : createFolders h w (wipProjectsDir scene scene.studio_props.version)
      (finProjectsDir scene scene.studio_props.version) (get_arch_folder scene) with
    ⟨oe, w1, tr⟩
  cases oe with
  | some e =>
    simp only [hc] at hR
    subst hR
    rfl
  | none =>
    simp only [hc] at hR
    cases hs : doSave h w1
        (osPathJoin (wipProjectsDir scene scene.studio_props.version)
          (get_blend_filename scene scene.studio_props.version "wip")) false with
    | error e =>
      simp only [hs] at hR
      subst hR
      rfl
    | ok w2 =>
      simp only [hs] at hR
      subst hR
      rfl

theorem finalize_props_const (scene : Scene) (h : Host) (w : World) :
    (STUDIO_OT_finalize_execute scene h w).props = scene.studio_props := by
  obtain ⟨R, hR⟩ : ∃ R, STUDIO_OT_finalize_execute scene h w = R := ⟨_, rfl⟩
  rw [hR]
  simp only [STUDIO_OT_finalize_execute] at hR
  by_cases hm : finProjectsDir scene scene.studio_props.version ∈ w.fs
  · rw [if_pos hm] at hR
    cases hs : doSave h w
        (osPathJoin (finProjectsDir scene scene.studio_props.version)
          (get_blend_filename scene scene.studio_props.version "fin")) true with
    | error e => simp only [hs] at hR; subst hR; rfl
    | ok w2 => simp only [hs] at hR; subst hR; rfl
  · rw [if_neg hm] at hR
    cases hmk : doMakedirs h w (finProjectsDir scene scene.studio_props.version) true with
    | error e => simp only [hmk] at hR; subst hR; rfl
    | ok w1 =>
      simp only [hmk] at hR
      cases hs : doSave h w1
          (osPathJoin (finProjectsDir scene scene.studio_props.version)
            (get_blend_filename scene scene.studio_props.version "fin")) true with
      | error e => simp only [hs] at hR; subst hR; rfl
      | ok w2 => simp only [hs] at hR; subst hR; rfl

theorem finalize_success_spec (scene : Scene) (h : Host) (w : World)
    (hmk : finProjectsDir scene scene.studio_props.version ∉ w.fs →
      h.mkdirErr (finProjectsDir scene scene.studio_props.version) = none)
    (hsv : h.saveErr (osPathJoin (finProjectsDir scene scene.studio_props.version)
      (get_blend_filename scene scene.studio_props.version "fin")) true = none) :
    (STUDIO_OT_finalize_execute scene h w).outcome = OpOutcome.finished ∧
    Effect.save (osPathJoin (finProjectsDir scene scene.studio_props.version)
      (get_blend_filename scene scene.studio_props.version "fin")) true ∈
      (STUDIO_OT_finalize_execute scene h w).trace ∧
    (STUDIO_OT_finalize_execute scene h w).world.docPath = w.docPath ∧
    (STUDIO_OT_finalize_execute scene h w).reports =
      [⟨"INFO", "Published Final: " ++
        get_blend_filename scene scene.studio_props.version "fin"⟩] := by
  by_cases hm : finProjectsDir scene scene.studio_props.version ∈ w.fs
  · simp [STUDIO_OT_finalize_execute, if_pos hm, doSave_none, hsv]
  · simp [STUDIO_OT_finalize_execute, if_neg hm, doMakedirs_none, hmk hm, doSave_none, hsv, hm]

theorem archiveStep_not_exists (scene : Scene) (h : Host) (w : World) (v : Nat)
    (hold : get_version_folder scene v ∉ w.fs) :
    archiveStep scene h w v = (w, [], []) := by
  unfold archiveStep
  rw [if_neg hold]

theorem archiveStep_dest_exists (scene : Scene) (h : Host) (w : World) (v : Nat)
    (hold : get_version_folder scene v ∈ w.fs)
    (hdest : osPathJoin (get_arch_folder scene) ("v" ++ fmt02 v) ∈ w.fs) :
    archiveStep scene h w v =
      (w, [⟨"WARNING", "Archive for v" ++ fmt02 v ++ " already exists."⟩], []) := by
  unfold archiveStep
  rw [if_pos hold, if_pos hdest]

theorem archiveStep_move_err (scene : Scene) (h : Host) (w : World) (v : Nat) (e : String)
    (hold : get_version_folder scene v ∈ w.fs)
    (hdest : osPathJoin (get_arch_folder scene) ("v" ++ fmt02 v) ∉ w.fs)
    (hmv : h.moveErr (get_version_folder scene v)
      (osPathJoin (get_arch_folder scene) ("v" ++ fmt02 v)) = some e) :
    archiveStep scene h w v =
      (w, [⟨"WARNING", "Failed to move to archive: " ++ e⟩],
        [Effect.move (get_version_folder scene v)
          (osPathJoin (get_arch_folder scene) ("v" ++ fmt02 v))]) := by
  unfold archiveStep
  rw [if_pos hold, if_neg hdest, doMove_err _ _ _ _ _ hmv]

/-- C2: when steps 1-3 of the Version Iterator succeed, the archive step
never aborts the operation (the outcome is FINISHED for every host
behaviour of the move), and the three policy outcomes hold: absent old
folder - no move and no report; existing archive destination - no move,
one warning, old folder left in place; failing move - one warning, old
folder left in place. -/
theorem C2_archive_step_policy (scene : Scene) (flag : Bool) (h : Host) (w : World) (e : String)
    (hmk1 : h.mkdirErr (wipProjectsDir scene (scene.studio_props.version + 1)) = none)
    (hmk2 : h.mkdirErr (finProjectsDir scene (scene.studio_props.version + 1)) = none)
    (hwipe : flag = true → h.wipeErr = none)
    (hsave : h.saveErr
      (osPathJoin (wipProjectsDir scene (scene.studio_props.version + 1))
        (get_blend_filename scene (scene.studio_props.version + 1) "wip")) false = none) :
    (STUDIO_OT_archive_and_iterate_execute scene flag h w).outcome = OpOutcome.finished ∧
    (get_version_folder scene scene.studio_props.version ∉ w.fs →
      (STUDIO_OT_archive_and_iterate_execute scene flag h w).reports = [] ∧
      ∀ src dst, Effect.move src dst ∉
        (STUDIO_OT_archive_and_iterate_execute scene flag h w).trace) ∧
    (get_version_folder scene scene.studio_props.version ∈ w.fs →
      osPathJoin (get_arch_folder scene) ("v" ++ fmt02 scene.studio_props.version) ∈ w.fs →
      (STUDIO_OT_archive_and_iterate_execute scene flag h w).reports =
        [⟨"WARNING", "Archive for v" ++ fmt02 scene.studio_props.version ++
          " already exists."⟩] ∧
      (∀ src dst, Effect.move src dst ∉
        (STUDIO_OT_archive_and_iterate_execute scene flag h w).trace) ∧
      get_version_folder scene scene.studio_props.version ∈
        (STUDIO_OT_archive_and_iterate_execute scene flag h w).world.fs) ∧
    (get_version_folder scene scene.studio_props.version ∈ w.fs →
      osPathJoin (get_arch_folder scene) ("v" ++ fmt02 scene.studio_props.version) ∉ w.fs →
      h.moveErr (get_version_folder scene scene.studio_props.version)
        (osPathJoin (get_arch_folder scene) ("v" ++ fmt02 scene.studio_props.version)) =
        some e →
      (STUDIO_OT_archive_and_iterate_execute scene flag h w).reports =
        [⟨"WARNING", "Failed to move to archive: " ++ e⟩] ∧
      get_version_folder scene scene.studio_props.version ∈
        (STUDIO_OT_archive_and_iterate_execute scene flag h w).world.fs) := by
  obtain ⟨w3, hw3mem, hE⟩ := iterate_success_form scene flag h w hmk1 hmk2 hwipe hsave
  have hold_iff := hw3mem (get_version_folder scene scene.studio_props.version)
    (version_folder_ne_wipDir scene scene scene.studio_props.version
      (scene.studio_props.version + 1))
    (version_folder_ne_finDir scene scene scene.studio_props.version
      (scene.studio_props.version + 1))
  have hdest_iff := hw3mem
    (osPathJoin (get_arch_folder scene) ("v" ++ fmt02 scene.studio_props.version))
    (arch_dest_ne_wipDir scene scene scene.studio_props.version
      (scene.studio_props.version + 1))
    (arch_dest_ne_finDir scene scene scene.studio_props.version
      (scene.studio_props.version + 1))
  have hite : ∀ src dst, Effect.move src dst ∉ (if flag then [Effect.wipe] else []) := by
    intro src dst
    cases flag <;> simp
  rw [hE]
  refine ⟨rfl, ?_, ?_, ?_⟩
  · intro hold
    rw [archiveStep_not_exists scene h w3 _ (fun hmem => hold (hold_iff.mp hmem))]
    refine ⟨rfl, ?_⟩
    intro src dst hmem
    simp only [List.append_nil, List.mem_append, List.mem_cons, List.mem_singleton,
      List.not_mem_nil, or_false] at hmem
    rcases hmem with ((hmem | hmem) | hmem) | hmem
    · exact Effect.noConfusion hmem
    · exact Effect.noConfusion hmem
    · exact hite src dst hmem
    · exact Effect.noConfusion hmem
  · intro hold hdest
    rw [archiveStep_dest_exists scene h w3 _ (hold_iff.mpr hold) (hdest_iff.mpr hdest)]
    refine ⟨rfl, ?_, hold_iff.mpr hold⟩
    intro src dst hmem
    simp only [List.append_nil, List.mem_append, List.mem_cons, List.mem_singleton,
      List.not_mem_nil, or_false] at hmem
    rcases hmem with ((hmem | hmem) | hmem) | hmem
    · exact Effect.noConfusion hmem
    · exact Effect.noConfusion hmem
    · exact hite src dst hmem
    · exact Effect.noConfusion hmem
  · intro hold hdest hmv
    rw [archiveStep_move_err scene h w3 _ e (hold_iff.mpr hold)
      (fun hmem => hdest (hdest_iff.mp hmem)) hmv]
    exact ⟨rfl, hold_iff.mpr hold⟩

theorem C2_witness :
    (STUDIO_OT_archive_and_iterate_execute sceneW true hostOK world0).reports = [] ∧
    (STUDIO_OT_archive_and_iterate_execute sceneW true hostOK worldV1Arch).reports =
      [⟨"WARNING", "Archive for v" ++ fmt02 1 ++ " already exists."⟩] ∧
    (STUDIO_OT_archive_and_iterate_execute sceneW true hostMoveFail worldV1).reports =
      [⟨"WARNING", "Failed to move to archive: " ++ "locked"⟩] ∧
    (STUDIO_OT_archive_and_iterate_execute sceneW true hostMoveFail worldV1).outcome =
      OpOutcome.finished :=
  ⟨((C2_archive_step_policy sceneW true hostOK world0 "x" rfl rfl (fun _ => rfl) rfl).2.1
      (by decide)).1,
   ((C2_archive_step_policy sceneW true hostOK worldV1Arch "x" rfl rfl (fun _ => rfl) rfl).2.2.1
      (by decide) (by decide)).1,
   ((C2_archive_step_policy sceneW true hostMoveFail worldV1 "locked" rfl rfl (fun _ => rfl)
      rfl).2.2.2 (by decide) (by decide) rfl).1,
   (C2_archive_step_policy sceneW true hostMoveFail worldV1 "locked" rfl rfl (fun _ => rfl)
      rfl).1⟩

/-- C1 as frozen is false on the code: a concrete run in which step-1
folder creation raises never attempts the step-3 save (the trace holds
only the failed makedirs call), and the exception escapes `execute`
as an uncaught exception instead of becoming a status message (no
report is emitted). -/
theorem C1_counterexample :
    (STUDIO_OT_archive_and_iterate_execute sceneW true hostMkdirFail world0).outcome =
      OpOutcome.raised "disk full" ∧
    (STUDIO_OT_archive_and_iterate_execute sceneW true hostMkdirFail world0).trace =
      [Effect.makedirs (wipProjectsDir sceneW 2) true] ∧
    (STUDIO_OT_archive_and_iterate_execute sceneW true hostMkdirFail world0).reports = [] :=
  ⟨by decide, by decide, by decide⟩

/-- C1 amended: the step-3 save is not gated on any success flag of
steps 1-2 and is attempted whenever folder creation and the optional
wipe complete without raising (even if the save itself then fails); the
step-4 archive move is the only guarded step, so when steps 1-3 succeed
the operator always returns FINISHED; but an exception raised by step-1
folder creation or the step-2 wipe propagates out of `execute` to the
host and the save is not attempted. -/
theorem C1_amended_exception_policy (scene : Scene) (flag : Bool) (h : Host) (w : World)
    (e : String) :
    (h.mkdirErr (wipProjectsDir scene (scene.studio_props.version + 1)) = some e →
      wipProjectsDir scene (scene.studio_props.version + 1) ∉ w.fs →
      (STUDIO_OT_archive_and_iterate_execute scene flag h w).outcome = OpOutcome.raised e ∧
      ∀ eff ∈ (STUDIO_OT_archive_and_iterate_execute scene flag h w).trace,
        eff.isSave = false) ∧
    (flag = true →
      h.mkdirErr (wipProjectsDir scene (scene.studio_props.version + 1)) = none →
      h.mkdirErr (finProjectsDir scene (scene.studio_props.version + 1)) = none →
      h.wipeErr = some e →
      (STUDIO_OT_archive_and_iterate_execute scene flag h w).outcome = OpOutcome.raised e ∧
      ∀ eff ∈ (STUDIO_OT_archive_and_iterate_execute scene flag h w).trace,
        eff.isSave = false) ∧
    (h.mkdirErr (wipProjectsDir scene (scene.studio_props.version + 1)) = none →
      h.mkdirErr (finProjectsDir scene (scene.studio_props.version + 1)) = none →
      (flag = true → h.wipeErr = none) →
      Effect.save (osPathJoin (wipProjectsDir scene (scene.studio_props.version + 1))
        (get_blend_filename scene (scene.studio_props.version + 1) "wip")) false ∈
        (STUDIO_OT_archive_and_iterate_execute scene flag h w).trace) ∧
    (h.mkdirErr (wipProjectsDir scene (scene.studio_props.version + 1)) = none →
      h.mkdirErr (finProjectsDir scene (scene.studio_props.version + 1)) = none →
      (flag = true → h.wipeErr = none) →
      h.saveErr (osPathJoin (wipProjectsDir scene (scene.studio_props.version + 1))
        (get_blend_filename scene (scene.studio_props.version + 1) "wip")) false = none →
      (STUDIO_OT_archive_and_iterate_execute scene flag h w).outcome =
        OpOutcome.finished) := by
  refine ⟨?_, ?_, ?_, ?_⟩
  · intro hmk hmem
    simp only [STUDIO_OT_archive_and_iterate_execute, doMakedirs_err h w _ e hmem hmk]
    simp [Effect.isSave]
  · intro hflag h1 h2 hwv
    subst hflag
    simp only [STUDIO_OT_archive_and_iterate_execute, doMakedirs_none _ _ _ h1,
      doMakedirs_none _ _ _ h2, if_true, hwv]
    simp [Effect.isSave]
  · intro h1 h2 hwv
    have hw2 : (if flag then h.wipeErr else none) = none := by
      cases flag with
      | false => rfl
      | true => exact hwv rfl
    cases hs : h.saveErr (osPathJoin (wipProjectsDir scene (scene.studio_props.version + 1))
        (get_blend_filename scene (scene.studio_props.version + 1) "wip")) false with
    | some e2 =>
      simp only [STUDIO_OT_archive_and_iterate_execute, doMakedirs_none _ _ _ h1,
        doMakedirs_none _ _ _ h2, hw2, doSave_err _ _ _ _ _ hs]
      simp
    | none =>
      simp only [STUDIO_OT_archive_and_iterate_execute, doMakedirs_none _ _ _ h1,
        doMakedirs_none _ _ _ h2, hw2, doSave_none _ _ _ _ hs]
      simp
  · intro h1 h2 hwv hsv
    obtain ⟨w3, -, hE⟩ := iterate_success_form scene flag h w h1 h2 hwv hsv
    rw [hE]

theorem C1_witness :
    (STUDIO_OT_archive_and_iterate_execute sceneW true hostMkdirFail world0).outcome =
      OpOutcome.raised "disk full" ∧
    Effect.save (osPathJoin (wipProjectsDir sceneW 2) (get_blend_filename sceneW 2 "wip"))
        false ∈ (STUDIO_OT_archive_and_iterate_execute sceneW true hostSaveFail world0).trace ∧
    (STUDIO_OT_archive_and_iterate_execute sceneW true hostOK world0).outcome =
      OpOutcome.finished :=
  ⟨((C1_amended_exception_policy sceneW true hostMkdirFail world0 "disk full").1 rfl
      (by decide)).1,
   (C1_amended_exception_policy sceneW true hostSaveFail world0 "x").2.2.1 rfl rfl
     (fun _ => rfl),
   (C1_amended_exception_policy sceneW true hostOK world0 "x").2.2.2 rfl rfl
     (fun _ => rfl) rfl⟩

/-- C3: every completing run of the Version Iterator sets the version to
exactly its prior value plus one, for every host behaviour of the
archive step; no run of any operator ever decreases the version, and
neither the Structure Initializer nor the Finalizer ever writes it. -/
theorem C3_version_single_increment (scene : Scene) (flag : Bool) (h : Host) (w : World) :
    ((STUDIO_OT_archive_and_iterate_execute scene flag h w).outcome = OpOutcome.finished →
      (STUDIO_OT_archive_and_iterate_execute scene flag h w).props.version =
        scene.studio_props.version + 1) ∧
    scene.studio_props.version ≤
      (STUDIO_OT_archive_and_iterate_execute scene flag h w).props.version ∧
    (STUDIO_OT_create_structure_execute scene h w).props.version =
      scene.studio_props.version ∧
    (STUDIO_OT_finalize_execute scene h w).props.version = scene.studio_props.version := by
  refine ⟨?_, ?_, create_props_version scene h w, by rw [finalize_props_const]⟩
  · intro hf
    rcases iterate_props_dichotomy scene flag h w with ⟨hp, ho⟩ | ⟨hp, ho⟩
    · exact absurd hf ho
    · rw [hp]
  · rcases iterate_props_dichotomy scene flag h w with ⟨hp, ho⟩ | ⟨hp, ho⟩
    · rw [hp]
    · rw [hp]
      exact Nat.le_succ _

theorem C3_witness :
    (STUDIO_OT_archive_and_iterate_execute sceneW true hostOK world0).outcome =
      OpOutcome.finished ∧
    (STUDIO_OT_archive_and_iterate_execute sceneW true hostOK world0).props.version = 2 :=
  ⟨by decide,
   (C3_version_single_increment sceneW true hostOK world0).1 (by decide)⟩

/-- C4: if directory creation in the Structure Initializer fails, the
operator reports a folder error and is CANCELLED without attempting the
save and without changing `is_generated`; if the save fails, it reports
a distinct save error and is CANCELLED with `is_generated` unchanged
while the created directories remain in the filesystem state (no
rollback). -/
theorem C4_create_structure_failure (scene : Scene) (h : Host) (w : World) (e : String) :
    (∀ w1 tr, createFolders h w (wipProjectsDir scene scene.studio_props.version)
        (finProjectsDir scene scene.studio_props.version) (get_arch_folder scene) =
        (some e, w1, tr) →
      (STUDIO_OT_create_structure_execute scene h w).outcome = OpOutcome.cancelled ∧
      (STUDIO_OT_create_structure_execute scene h w).reports =
        [⟨"ERROR", "Could not create folders: " ++ e⟩] ∧
      (∀ eff ∈ (STUDIO_OT_create_structure_execute scene h w).trace, eff.isSave = false) ∧
      (STUDIO_OT_create_structure_execute scene h w).props.is_generated =
        scene.studio_props.is_generated) ∧
    (∀ w1 tr, createFolders h w (wipProjectsDir scene scene.studio_props.version)
        (finProjectsDir scene scene.studio_props.version) (get_arch_folder scene) =
        (none, w1, tr) →
      h.saveErr (osPathJoin (wipProjectsDir scene scene.studio_props.version)
        (get_blend_filename scene scene.studio_props.version "wip")) false = some e →
      (STUDIO_OT_create_structure_execute scene h w).outcome = OpOutcome.cancelled ∧
      (STUDIO_OT_create_structure_execute scene h w).reports =
        [⟨"ERROR", "Could not save file: " ++ e⟩] ∧
      (STUDIO_OT_create_structure_execute scene h w).props.is_generated =
        scene.studio_props.is_generated ∧
      (STUDIO_OT_create_structure_execute scene h w).world = w1 ∧
      wipProjectsDir scene scene.studio_props.version ∈
        (STUDIO_OT_create_structure_execute scene h w).world.fs ∧
      finProjectsDir scene scene.studio_props.version ∈
        (STUDIO_OT_create_structure_execute scene h w).world.fs ∧
      get_arch_folder scene ∈ (STUDIO_OT_create_structure_execute scene h w).world.fs ∧
      (STUDIO_OT_create_structure_execute scene h w).trace =
        tr ++ [Effect.save (osPathJoin (wipProjectsDir scene scene.studio_props.version)
          (get_blend_filename scene scene.studio_props.version "wip")) false]) ∧
    ("Could not create folders: " ++ e) ≠ ("Could not save file: " ++ e) := by
  refine ⟨?_, ?_, ?_⟩
  · intro w1 tr hc
    have hE : STUDIO_OT_create_structure_execute scene h w =
        ⟨OpOutcome.cancelled, scene.studio_props, w1,
         [⟨"ERROR", "Could not create folders: " ++ e⟩], tr⟩ := by
      simp only [STUDIO_OT_create_structure_execute, hc]
    rw [hE]
    exact ⟨rfl, rfl, createFolders_trace_no_save h w _ _ _ _ _ _ hc, rfl⟩
  · intro w1 tr hc hsv
    obtain ⟨htr, hm1, hm2, hm3, hdoc⟩ := createFolders_none_parts h w _ _ _ _ _ hc
    have hE : STUDIO_OT_create_structure_execute scene h w =
        ⟨OpOutcome.cancelled, scene.studio_props, w1,
         [⟨"ERROR", "Could not save file: " ++ e⟩],
         tr ++ [Effect.save (osPathJoin (wipProjectsDir scene scene.studio_props.version)
           (get_blend_filename scene scene.studio_props.version "wip")) false]⟩ := by
      simp only [STUDIO_OT_create_structure_execute, hc, doSave_err _ _ _ _ _ hsv]
    rw [hE]
    exact ⟨rfl, rfl, rfl, rfl, hm1, hm2, hm3, rfl⟩
  · intro hmsg
    have hlen := congrArg (fun s : String => s.data.length) hmsg
    simp only [String.data_append, List.length_append] at hlen
    have l1 : ("Could not create folders: " : String).data.length = 26 := rfl
    have l2 : ("Could not save file: " : String).data.length = 21 := rfl
    rw [l1, l2] at hlen
    omega

theorem C4_witness :
    (STUDIO_OT_create_structure_execute sceneW hostMkdirFail world0).outcome =
      OpOutcome.cancelled ∧
    (STUDIO_OT_create_structure_execute sceneW hostMkdirFail world0).props.is_generated =
      false ∧
    (STUDIO_OT_create_structure_execute sceneW hostSaveFail world0).outcome =
      OpOutcome.cancelled ∧
    (STUDIO_OT_create_structure_execute sceneW hostSaveFail world0).props.is_generated =
      false :=
  ⟨((C4_create_structure_failure sceneW hostMkdirFail world0 "disk full").1 _ _ rfl).1,
   ((C4_create_structure_failure sceneW hostMkdirFail world0 "disk full").1 _ _ rfl).2.2.2,
   ((C4_create_structure_failure sceneW hostSaveFail world0 "io error").2.1 _ _ rfl rfl).1,
   ((C4_create_structure_failure sceneW hostSaveFail world0 "io error").2.1 _ _ rfl rfl).2.2.1⟩

/-- C5: on a successful run the Structure Initializer performs exactly
three directory creations (current version's wip/projects and
fin/projects folders and the archive root, each with create-if-absent
semantics) followed by one save at the wip filename inside the
wip/projects folder, sets `is_generated` to true, and re-running from
the resulting filesystem state succeeds again without changing the set
of directories. -/
theorem C5_create_structure_success (scene : Scene) (h : Host) (w : World) (w1 : World)
    (tr : List Effect)
    (hc : createFolders h w (wipProjectsDir scene scene.studio_props.version)
      (finProjectsDir scene scene.studio_props.version) (get_arch_folder scene) =
      (none, w1, tr))
    (hsv : h.saveErr (osPathJoin (wipProjectsDir scene scene.studio_props.version)
      (get_blend_filename scene scene.studio_props.version "wip")) false = none) :
    (STUDIO_OT_create_structure_execute scene h w).outcome = OpOutcome.finished ∧
    (STUDIO_OT_create_structure_execute scene h w).props =
      ⟨scene.studio_props.base_path, scene.studio_props.asset_type,
       scene.studio_props.asset_name, scene.studio_props.version, true⟩ ∧
    (STUDIO_OT_create_structure_execute scene h w).reports =
      [⟨"INFO", "Workbench Initialized: " ++
        get_blend_filename scene scene.studio_props.version "wip"⟩] ∧
    (STUDIO_OT_create_structure_execute scene h w).trace =
      [Effect.makedirs (wipProjectsDir scene scene.studio_props.version) true,
       Effect.makedirs (finProjectsDir scene scene.studio_props.version) true,
       Effect.makedirs (get_arch_folder scene) true,
       Effect.save (osPathJoin (wipProjectsDir scene scene.studio_props.version)
         (get_blend_filename scene scene.studio_props.version "wip")) false] ∧
    (STUDIO_OT_create_structure_execute scene h
        (STUDIO_OT_create_structure_execute scene h w).world).outcome =
      OpOutcome.finished ∧
    (STUDIO_OT_create_structure_execute scene h
        (STUDIO_OT_create_structure_execute scene h w).world).world.fs =
      (STUDIO_OT_create_structure_execute scene h w).world.fs := by
  obtain ⟨htr, hm1, hm2, hm3, hdoc⟩ := createFolders_none_parts h w _ _ _ _ _ hc
  subst htr
  have hE : STUDIO_OT_create_structure_execute scene h w =
      ⟨OpOutcome.finished,
       ⟨scene.studio_props.base_path, scene.studio_props.asset_type,
        scene.studio_props.asset_name, scene.studio_props.version, true⟩,
       ⟨w1.fs, osPathJoin (wipProjectsDir scene scene.studio_props.version)
         (get_blend_filename scene scene.studio_props.version "wip")⟩,
       [⟨"INFO", "Workbench Initialized: " ++
         get_blend_filename scene scene.studio_props.version "wip"⟩],
       [Effect.makedirs (wipProjectsDir scene scene.studio_props.version) true,
        Effect.makedirs (finProjectsDir scene scene.studio_props.version) true,
        Effect.makedirs (get_arch_folder scene) true] ++
       [Effect.save (osPathJoin (wipProjectsDir scene scene.studio_props.version)
         (get_blend_filename scene scene.studio_props.version "wip")) false]⟩ := by
    simp only [STUDIO_OT_create_structure_execute, hc, doSave_none _ _ _ _ hsv]
    rfl
  have hcf2 := createFolders_all_mem h
    ⟨w1.fs, osPathJoin (wipProjectsDir scene scene.studio_props.version)
      (get_blend_filename scene scene.studio_props.version "wip")⟩
    (wipProjectsDir scene scene.studio_props.version)
    (finProjectsDir scene scene.studio_props.version)
    (get_arch_folder scene) hm1 hm2 hm3
  have hE2 : STUDIO_OT_create_structure_execute scene h
      ⟨w1.fs, osPathJoin (wipProjectsDir scene scene.studio_props.version)
        (get_blend_filename scene scene.studio_props.version "wip")⟩ =
      ⟨OpOutcome.finished,
       ⟨scene.studio_props.base_path, scene.studio_props.asset_type,
        scene.studio_props.asset_name, scene.studio_props.version, true⟩,
       ⟨w1.fs, osPathJoin (wipProjectsDir scene scene.studio_props.version)
         (get_blend_filename scene scene.studio_props.version "wip")⟩,
       [⟨"INFO", "Workbench Initialized: " ++
         get_blend_filename scene scene.studio_props.version "wip"⟩],
       [Effect.makedirs (wipProjectsDir scene scene.studio_props.version) true,
        Effect.makedirs (finProjectsDir scene scene.studio_props.version) true,
        Effect.makedirs (get_arch_folder scene) true] ++
       [Effect.save (osPathJoin (wipProjectsDir scene scene.studio_props.version)
         (get_blend_filename scene scene.studio_props.version "wip")) false]⟩ := by
    simp only [STUDIO_OT_create_structure_execute, hcf2, doSave_none _ _ _ _ hsv]
    rfl
  have hw : (STUDIO_OT_create_structure_execute scene h w).world =
      ⟨w1.fs, osPathJoin (wipProjectsDir scene scene.studio_props.version)
        (get_blend_filename scene scene.studio_props.version "wip")⟩ := by
    rw [hE]
  refine ⟨by rw [hE], by rw [hE], by rw [hE], by rw [hE]; simp, ?_, ?_⟩
  · rw [hw, hE2]
  · rw [hw, hE2]

theorem C5_witness :
    (STUDIO_OT_create_structure_execute sceneW hostOK world0).outcome =
      OpOutcome.finished ∧
    (STUDIO_OT_create_structure_execute sceneW hostOK world0).props.is_generated = true ∧
    (STUDIO_OT_create_structure_execute sceneW hostOK world0).trace =
      [Effect.makedirs "/studio/prp_My_Asset/v01/wip/projects" true,
       Effect.makedirs "/studio/prp_My_Asset/v01/fin/projects" true,
       Effect.makedirs "/studio/prp_My_Asset/arch" true,
       Effect.save "/studio/prp_My_Asset/v01/wip/projects/prp_My_Asset_v01_wip.blend"
         false] ∧
    (STUDIO_OT_create_structure_execute sceneW hostOK
        (STUDIO_OT_create_structure_execute sceneW hostOK world0).world).outcome =
      OpOutcome.finished :=
  ⟨(C5_create_structure_success sceneW hostOK world0 _ _ rfl rfl).1,
   by decide,
   by decide,
   (C5_create_structure_success sceneW hostOK world0 _ _ rfl rfl).2.2.2.2.1⟩

/-- C9: the Finalizer never mutates any field of the property group (on
every run, including ones on which a host call raises), and on a
completing run it requests a copy-save at the fin filename of the
current version and leaves the document's canonical path unchanged. -/
theorem C9_finalizer_frame (scene : Scene) (h : Host) (w : World) :
    (STUDIO_OT_finalize_execute scene h w).props = scene.studio_props ∧
    ((finProjectsDir scene scene.studio_props.version ∉ w.fs →
        h.mkdirErr (finProjectsDir scene scene.studio_props.version) = none) →
      h.saveErr (osPathJoin (finProjectsDir scene scene.studio_props.version)
        (get_blend_filename scene scene.studio_props.version "fin")) true = none →
      (STUDIO_OT_finalize_execute scene h w).outcome = OpOutcome.finished ∧
      Effect.save (osPathJoin (finProjectsDir scene scene.studio_props.version)
        (get_blend_filename scene scene.studio_props.version "fin")) true ∈
        (STUDIO_OT_finalize_execute scene h w).trace ∧
      (STUDIO_OT_finalize_execute scene h w).world.docPath = w.docPath) :=
  ⟨finalize_props_const scene h w, fun hmk hsv =>
    ⟨(finalize_success_spec scene h w hmk hsv).1,
     (finalize_success_spec scene h w hmk hsv).2.1,
     (finalize_success_spec scene h w hmk hsv).2.2.1⟩⟩

theorem C9_witness :
    (STUDIO_OT_finalize_execute sceneW hostOK world0).props = sceneW.studio_props ∧
    (STUDIO_OT_finalize_execute sceneW hostOK world0).outcome = OpOutcome.finished ∧
    (STUDIO_OT_finalize_execute sceneW hostOK world0).world.docPath = world0.docPath :=
  ⟨(C9_finalizer_frame sceneW hostOK world0).1,
   ((C9_finalizer_frame sceneW hostOK world0).2 (fun _ => rfl) rfl).1,
   ((C9_finalizer_frame sceneW hostOK world0).2 (fun _ => rfl) rfl).2.2⟩

theorem wipProjectsDir_withGen (scene : Scene) (b : Bool) (v : Nat) :
    wipProjectsDir (withGen scene b) v = wipProjectsDir scene v := rfl

theorem finProjectsDir_withGen (scene : Scene) (b : Bool) (v : Nat) :
    finProjectsDir (withGen scene b) v = finProjectsDir scene v := rfl

theorem get_arch_folder_withGen (scene : Scene) (b : Bool) :
    get_arch_folder (withGen scene b) = get_arch_folder scene := rfl

theorem get_version_folder_withGen (scene : Scene) (b : Bool) (v : Nat) :
    get_version_folder (withGen scene b) v = get_version_folder scene v := rfl

theorem get_blend_filename_withGen (scene : Scene) (b : Bool) (v : Nat) (st : String) :
    get_blend_filename (withGen scene b) v st = get_blend_filename scene v st := rfl

theorem withGen_version (scene : Scene) (b : Bool) :
    (withGen scene b).studio_props.version = scene.studio_props.version := rfl

theorem archiveStep_withGen (scene : Scene) (b : Bool) (h : Host) (w : World) (v : Nat) :
    archiveStep (withGen scene b) h w v = archiveStep scene h w v := rfl

theorem finalize_withGen (scene : Scene) (b : Bool) (h : Host) (w : World) :
    STUDIO_OT_finalize_execute (withGen scene b) h w =
      ⟨(STUDIO_OT_finalize_execute scene h w).outcome,
       ⟨scene.studio_props.base_path, scene.studio_props.asset_type,
        scene.studio_props.asset_name, scene.studio_props.version, b⟩,
       (STUDIO_OT_finalize_execute scene h w).world,
       (STUDIO_OT_finalize_execute scene h w).reports,
       (STUDIO_OT_finalize_execute scene h w).trace⟩ := by
  obtain ⟨R, hR⟩ : ∃ R, STUDIO_OT_finalize_execute scene h w = R := ⟨_, rfl⟩
  rw [hR]
  simp only [STUDIO_OT_finalize_execute, finProjectsDir_withGen, get_blend_filename_withGen,
    withGen_version] at hR ⊢
  by_cases hm : finProjectsDir scene scene.studio_props.version ∈ w.fs
  · rw [if_pos hm] at hR ⊢
    cases hs : doSave h w (osPathJoin (finProjectsDir scene scene.studio_props.version)
        (get_blend_filename scene scene.studio_props.version "fin")) true with
    | error e2 =>
      simp only [hs] at hR ⊢
      subst hR
      rfl
    | ok w2 =>
      simp only [hs] at hR ⊢
      subst hR
      rfl
  · rw [if_neg hm] at hR ⊢
    cases hmk : doMakedirs h w (finProjectsDir scene scene.studio_props.version) true with
    | error e2 =>
      simp only [hmk] at hR ⊢
      subst hR
      rfl
    | ok w1 =>
      simp only [hmk] at hR ⊢
      cases hs : doSave h w1 (osPathJoin (finProjectsDir scene scene.studio_props.version)
          (get_blend_filename scene scene.studio_props.version "fin")) true with
      | error e2 =>
        simp only [hs] at hR ⊢
        subst hR
        rfl
      | ok w2 =>
        simp only [hs] at hR ⊢
        subst hR
        rfl

theorem iterate_withGen (scene : Scene) (b : Bool) (flag : Bool) (h : Host) (w : World) :
    STUDIO_OT_archive_and_iterate_execute (withGen scene b) flag h w =
      ⟨(STUDIO_OT_archive_and_iterate_execute scene flag h w).outcome,
       ⟨scene.studio_props.base_path, scene.studio_props.asset_type,
        scene.studio_props.asset_name,
        (STUDIO_OT_archive_and_iterate_execute scene flag h w).props.version, b⟩,
       (STUDIO_OT_archive_and_iterate_execute scene flag h w).world,
       (STUDIO_OT_archive_and_iterate_execute scene flag h w).reports,
       (STUDIO_OT_archive_and_iterate_execute scene flag h w).trace⟩ := by
  obtain ⟨R, hR⟩ : ∃ R, STUDIO_OT_archive_and_iterate_execute scene flag h w = R := ⟨_, rfl⟩
  rw [hR]
  simp only [STUDIO_OT_archive_and_iterate_execute, wipProjectsDir_withGen,
    finProjectsDir_withGen, get_blend_filename_withGen, withGen_version,
    get_version_folder_withGen, get_arch_folder_withGen, archiveStep_withGen] at hR ⊢
  cases hm1 : doMakedirs h w (wipProjectsDir scene (scene.studio_props.version + 1)) true with
  | error e1 =>
    simp only [hm1] at hR ⊢
    subst hR
    rfl
  | ok w1 =>
    simp only [hm1] at hR ⊢
    cases hm2 : doMakedirs h w1 (finProjectsDir scene (scene.studio_props.version + 1))
        true with
    | error e2 =>
      simp only [hm2] at hR ⊢
      subst hR
      rfl
    | ok w2 =>
      simp only [hm2] at hR ⊢
      cases hwv : (if flag then h.wipeErr else none) with
      | some e3 =>
        simp only [hwv] at hR ⊢
        subst hR
        rfl
      | none =>
        simp only [hwv] at hR ⊢
        cases hsv : doSave h w2
            (osPathJoin (wipProjectsDir scene (scene.studio_props.version + 1))
              (get_blend_filename scene (scene.studio_props.version + 1) "wip")) false with
        | error e4 =>
          simp only [hsv] at hR ⊢
          subst hR
          rfl
        | ok w3 =>
          simp only [hsv] at hR ⊢
          subst hR
          rfl

/-- C10: neither the Finalizer nor the Version Iterator checks
`is_generated` (or any other precondition): with the flag forced to
false both operators behave identically to the unmodified scene (same
outcome, world, trace and reports), and under success oracles the
Finalizer still creates/uses the fin folder and requests the copy-save
there while the Version Iterator still finishes and advances the
version, with no prior structure required. -/
theorem C10_no_precondition_check (scene : Scene) (flag : Bool) (h : Host) (w : World) :
    (STUDIO_OT_finalize_execute (withGen scene false) h w).outcome =
      (STUDIO_OT_finalize_execute scene h w).outcome ∧
    (STUDIO_OT_finalize_execute (withGen scene false) h w).world =
      (STUDIO_OT_finalize_execute scene h w).world ∧
    (STUDIO_OT_finalize_execute (withGen scene false) h w).trace =
      (STUDIO_OT_finalize_execute scene h w).trace ∧
    (STUDIO_OT_finalize_execute (withGen scene false) h w).reports =
      (STUDIO_OT_finalize_execute scene h w).reports ∧
    (STUDIO_OT_archive_and_iterate_execute (withGen scene false) flag h w).outcome =
      (STUDIO_OT_archive_and_iterate_execute scene flag h w).outcome ∧
    (STUDIO_OT_archive_and_iterate_execute (withGen scene false) flag h w).world =
      (STUDIO_OT_archive_and_iterate_execute scene flag h w).world ∧
    (STUDIO_OT_archive_and_iterate_execute (withGen scene false) flag h w).trace =
      (STUDIO_OT_archive_and_iterate_execute scene flag h w).trace ∧
    (STUDIO_OT_archive_and_iterate_execute (withGen scene false) flag h w).reports =
      (STUDIO_OT_archive_and_iterate_execute scene flag h w).reports ∧
    ((finProjectsDir scene scene.studio_props.version ∉ w.fs →
        h.mkdirErr (finProjectsDir scene scene.studio_props.version) = none) →
      h.saveErr (osPathJoin (finProjectsDir scene scene.studio_props.version)
        (get_blend_filename scene scene.studio_props.version "fin")) true = none →
      (STUDIO_OT_finalize_execute (withGen scene false) h w).outcome =
        OpOutcome.finished ∧
      Effect.save (osPathJoin (finProjectsDir scene scene.studio_props.version)
        (get_blend_filename scene scene.studio_props.version "fin")) true ∈
        (STUDIO_OT_finalize_execute (withGen scene false) h w).trace) ∧
    (h.mkdirErr (wipProjectsDir scene (scene.studio_props.version + 1)) = none →
      h.mkdirErr (finProjectsDir scene (scene.studio_props.version + 1)) = none →
      (flag = true → h.wipeErr = none) →
      h.saveErr (osPathJoin (wipProjectsDir scene (scene.studio_props.version + 1))
        (get_blend_filename scene (scene.studio_props.version + 1) "wip")) false = none →
      (STUDIO_OT_archive_and_iterate_execute (withGen scene false) flag h w).outcome =
        OpOutcome.finished ∧
      (STUDIO_OT_archive_and_iterate_execute (withGen scene false) flag h w).props.version =
        scene.studio_props.version + 1) := by
  refine ⟨by rw [finalize_withGen], by rw [finalize_withGen], by rw [finalize_withGen],
    by rw [finalize_withGen], by rw [iterate_withGen], by rw [iterate_withGen],
    by rw [iterate_withGen], by rw [iterate_withGen], ?_, ?_⟩
  · intro hmk hsv
    exact ⟨(finalize_success_spec (withGen scene false) h w hmk hsv).1,
      (finalize_success_spec (withGen scene false) h w hmk hsv).2.1⟩
  · intro h1 h2 hwv hsv
    obtain ⟨w3, -, hE⟩ := iterate_success_form (withGen scene false) flag h w h1 h2 hwv hsv
    rw [hE]
    exact ⟨rfl, rfl⟩

theorem C10_witness :
    (STUDIO_OT_finalize_execute (withGen sceneW false) hostOK world0).outcome =
      OpOutcome.finished ∧
    (STUDIO_OT_archive_and_iterate_execute (withGen sceneW false) true hostOK
      world0).props.version = 2 :=
  ⟨((C10_no_precondition_check sceneW true hostOK world0).2.2.2.2.2.2.2.2.1
      (fun _ => rfl) rfl).1,
   ((C10_no_precondition_check sceneW true hostOK world0).2.2.2.2.2.2.2.2.2
      rfl rfl (fun _ => rfl) rfl).2⟩

end Workbench
